import Mathlib

/-!
Verification development for the oc-mirror refactor pipeline.

The Go sources are shallowly embedded: pure string manipulation from the
`strings`/`fmt` packages is reimplemented over `List Char`, machine hashes
(`crypto/md5`, 32-bit rotations) are computed over `Nat` with explicit
`% 2^32`, and Go's `error` values are an explicit `Option GoError`.
-/

set_option autoImplicit false

namespace OcMirror

/-! ## Go string helpers (strings.HasPrefix, Contains, Join, Split, ...) -/

/-- `chListIsStart pre l` : `pre` is an initial segment of `l`
(`strings.HasPrefix` over rune lists). -/
def chListIsStart : List Char → List Char → Bool
  | [], _ => true
  | _ :: _, [] => false
  | a :: as, b :: bs => a == b && chListIsStart as bs

/-- substring containment over rune lists (`strings.Contains`). -/
def chListContains : List Char → List Char → Bool
  | [], needle => chListIsStart needle []
  | c :: t, needle => chListIsStart needle (c :: t) || chListContains t needle

/-- `strings.HasPrefix s pre`. -/
def goStartsWith (s pre : String) : Bool := chListIsStart pre.data s.data

/-- `strings.Contains s sub`. -/
def goContains (s sub : String) : Bool := chListContains s.data sub.data

/-- `strings.TrimPrefix s pre`. -/
def goTrimStart (s pre : String) : String :=
  if goStartsWith s pre then ⟨s.data.drop pre.data.length⟩ else s

/-- `strings.Join l sep`. -/
def goJoin : List String → String → String
  | [], _ => ""
  | [x], _ => x
  | x :: xs, sep => x ++ sep ++ goJoin xs sep

/-- Split a rune list at the first occurrence of (non-empty) `sep`,
returning the pieces before and after it. -/
def chSplitFirst (sep : List Char) : List Char → Option (List Char × List Char)
  | [] => if chListIsStart sep [] then some ([], []) else none
  | c :: t =>
    if chListIsStart sep (c :: t) then some ([], (c :: t).drop sep.length)
    else (chSplitFirst sep t).map (fun p => (c :: p.1, p.2))

/-- `strings.Split` over rune lists (non-empty separator), driven by fuel;
`fuel = l.length + 1` is always sufficient. -/
def chSplitAll : Nat → List Char → List Char → List (List Char)
  | 0, l, _ => [l]
  | fuel + 1, l, sep =>
    match chSplitFirst sep l with
    | none => [l]
    | some (b, a) => b :: chSplitAll fuel a sep

/-- `strings.Split s sep` (non-empty separator). -/
def goSplit (s sep : String) : List String :=
  (chSplitAll (s.data.length + 1) s.data sep.data).map (fun l => ⟨l⟩)

/-- `strings.Replace s old new 1`: replace the first occurrence only. -/
def goReplaceOne (s old new : String) : String :=
  match chSplitFirst old.data s.data with
  | none => s
  | some (b, a) => ⟨b ++ new.data ++ a⟩

/-- Go `len` of a string.  Go counts bytes; every string handled by the
embedded code paths is ASCII, where bytes and runes coincide. -/
def goLen (s : String) : Nat := s.data.length

/-- Go string slicing `s[:n]` (ASCII, see `goLen`). -/
def goSliceTo (s : String) (n : Nat) : String := ⟨s.data.take n⟩

/-! ## MD5 (crypto/md5), over `Nat` bytes with explicit `% 2^32` -/

/-- Conversion of a Go string to its byte slice (`[]byte(s)`); all hashed
strings here are ASCII so code points are the bytes. -/
def toBytes (s : String) : List Nat := s.data.map Char.toNat

def u32mod : Nat := 4294967296

def u32 (n : Nat) : Nat := n % u32mod

/-- 32-bit left rotation: the overflowing high bits of `x <<< s` reappear
as the low bits. -/
def rotl32 (x s : Nat) : Nat := (x * 2 ^ s) % u32mod + x / 2 ^ (32 - s)

/-- bitwise complement within 32 bits. -/
def not32 (x : Nat) : Nat := Nat.xor x 4294967295

/-- per-round left-rotation amounts (RFC 1321). -/
def md5shift : List Nat :=
  [7, 12, 17, 22, 7, 12, 17, 22, 7, 12, 17, 22, 7, 12, 17, 22,
   5, 9, 14, 20, 5, 9, 14, 20, 5, 9, 14, 20, 5, 9, 14, 20,
   4, 11, 16, 23, 4, 11, 16, 23, 4, 11, 16, 23, 4, 11, 16, 23,
   6, 10, 15, 21, 6, 10, 15, 21, 6, 10, 15, 21, 6, 10, 15, 21]

/-- sine-derived additive constants (RFC 1321). -/
def md5K : List Nat :=
  [0xd76aa478, 0xe8c7b756, 0x242070db, 0xc1bdceee,
   0xf57c0faf, 0x4787c62a, 0xa8304613, 0xfd469501,
   0x698098d8, 0x8b44f7af, 0xffff5bb1, 0x895cd7be,
   0x6b901122, 0xfd987193, 0xa679438e, 0x49b40821,
   0xf61e2562, 0xc040b340, 0x265e5a51, 0xe9b6c7aa,
   0xd62f105d, 0x02441453, 0xd8a1e681, 0xe7d3fbc8,
   0x21e1cde6, 0xc33707d6, 0xf4d50d87, 0x455a14ed,
   0xa9e3e905, 0xfcefa3f8, 0x676f02d9, 0x8d2a4c8a,
   0xfffa3942, 0x8771f681, 0x6d9d6122, 0xfde5380c,
   0xa4beea44, 0x4bdecfa9, 0xf6bb4b60, 0xbebfbc70,
   0x289b7ec6, 0xeaa127fa, 0xd4ef3085, 0x04881d05,
   0xd9d4d039, 0xe6db99e5, 0x1fa27cf8, 0xc4ac5665,
   0xf4292244, 0x432aff97, 0xab9423a7, 0xfc93a039,
   0x655b59c3, 0x8f0ccc92, 0xffeff47d, 0x85845dd1,
   0x6fa87e4f, 0xfe2ce6e0, 0xa3014314, 0x4e0811a1,
   0xf7537e82, 0xbd3af235, 0x2ad7d2bb, 0xeb86d391]

/-- one MD5 round: mixes state `(a, b, c, d)` with message word `m`. -/
def md5round (i : Nat) (st : Nat × Nat × Nat × Nat) (block : List Nat) :
    Nat × Nat × Nat × Nat :=
  let (a, b, c, d) := st
  let fg : Nat × Nat :=
    if i < 16 then (Nat.lor (Nat.land b c) (Nat.land (not32 b) d), i)
    else if i < 32 then (Nat.lor (Nat.land d b) (Nat.land (not32 d) c), (5 * i + 1) % 16)
    else if i < 48 then (Nat.xor (Nat.xor b c) d, (3 * i + 5) % 16)
    else (Nat.xor c (Nat.lor b (not32 d)), (7 * i) % 16)
  let f := u32 (fg.1 + a + md5K.getD i 0 + block.getD fg.2 0)
  (d, u32 (b + rotl32 f (md5shift.getD i 0)), b, c)

/-- process one 16-word block through the 64 rounds and add the result
into the running state. -/
def md5block (st : Nat × Nat × Nat × Nat) (block : List Nat) :
    Nat × Nat × Nat × Nat :=
  let (a0, b0, c0, d0) := st
  let r := (List.range 64).foldl (fun acc i => md5round i acc block) st
  (u32 (a0 + r.1), u32 (b0 + r.2.1), u32 (c0 + r.2.2.1), u32 (d0 + r.2.2.2))

/-- split a byte list into chunks of `n` bytes (fuel-driven). -/
def chunksAux (n : Nat) : Nat → List Nat → List (List Nat)
  | 0, _ => []
  | _, [] => []
  | fuel + 1, l => l.take n :: chunksAux n fuel (l.drop n)

def chunksOf (n : Nat) (l : List Nat) : List (List Nat) :=
  chunksAux n l.length l

/-- little-endian byte decomposition: `k` bytes of `n`. -/
def leBytes : Nat → Nat → List Nat
  | _, 0 => []
  | n, k + 1 => n % 256 :: leBytes (n / 256) k

/-- little-endian 32-bit word from (up to) 4 bytes. -/
def le32 (bs : List Nat) : Nat :=
  bs.getD 0 0 + 256 * bs.getD 1 0 + 65536 * bs.getD 2 0 + 16777216 * bs.getD 3 0

/-- MD5 padding: 0x80, zeros to 56 mod 64, 8-byte little-endian bit length. -/
def md5pad (msg : List Nat) : List Nat :=
  let padLen := (55 + 64 - msg.length % 64) % 64 + 1
  msg ++ (128 :: List.replicate (padLen - 1) 0) ++ leBytes (8 * msg.length % 2 ^ 64) 8

/-- the four 32-bit MD5 state words after absorbing the whole message. -/
def md5state (msg : List Nat) : Nat × Nat × Nat × Nat :=
  let blocks := (chunksOf 64 (md5pad msg)).map (fun c => (chunksOf 4 c).map le32)
  blocks.foldl md5block (0x67452301, 0xefcdab89, 0x98badcfe, 0x10325476)

def md5bytes (msg : List Nat) : List Nat :=
  let (a, b, c, d) := md5state msg
  leBytes a 4 ++ leBytes b 4 ++ leBytes c 4 ++ leBytes d 4

def hexDigits : List Char := "0123456789abcdef".data

def hexChar (n : Nat) : Char := hexDigits.getD (n % 16) '0'

def byteHex (b : Nat) : List Char := [hexChar (b / 16), hexChar b]

/-- lowercase hex rendering of an MD5 digest (`fmt.Sprintf "%x"`). -/
def md5hex (msg : List Nat) : String := ⟨((md5bytes msg).map byteHex).flatten⟩

/-! ## Operator selector (v2alpha1.Operator) and its JSON serialization

Modelled from the spec: the `v2alpha1` configuration types are not among
the provided sources (only their callers are).  §6 of the spec describes an
operator entry as `catalog`, optional `targetCatalog`, `targetTag`, `full`,
and `packages[]`, each package carrying optional channels and version
ranges; `pkg/operator/common.go` additionally blanks a
`TargetCatalogSourceTemplate` field.  Go's `encoding/json` emits struct
fields in declaration order and slices in element order. -/

structure IncludeChannel where
  name : String
  minVersion : String
  maxVersion : String
deriving DecidableEq, Repr

structure IncludePackage where
  name : String
  channels : List IncludeChannel
  minVersion : String
  maxVersion : String
deriving DecidableEq, Repr

structure IncludeConfig where
  packages : List IncludePackage
deriving DecidableEq, Repr

structure OperatorConfig where
  catalog : String
  targetCatalog : String
  targetTag : String
  targetCatalogSourceTemplate : String
  full : Bool
  includeConfig : IncludeConfig
deriving DecidableEq, Repr

def jsonStr (s : String) : String :=
  "\"" ++ ⟨s.data.flatMap (fun c =>
    if c == '"' then ['\\', '"'] else if c == '\\' then ['\\', '\\'] else [c])⟩ ++ "\""

def jsonBool (b : Bool) : String := if b then "true" else "false"

def jsonArr (l : List String) : String := "[" ++ goJoin l "," ++ "]"

def jsonOfChannel (c : IncludeChannel) : String :=
  "\x7b\"name\":" ++ jsonStr c.name ++ ",\"minVersion\":" ++ jsonStr c.minVersion ++
    ",\"maxVersion\":" ++ jsonStr c.maxVersion ++ "\x7d"

def jsonOfPackage (p : IncludePackage) : String :=
  "\x7b\"name\":" ++ jsonStr p.name ++ ",\"channels\":" ++
    jsonArr (p.channels.map jsonOfChannel) ++ ",\"minVersion\":" ++ jsonStr p.minVersion ++
    ",\"maxVersion\":" ++ jsonStr p.maxVersion ++ "\x7d"

/-- `json.Marshal` of the operator entry: declaration-ordered fields,
order-preserving arrays. -/
def jsonOfOperator (c : OperatorConfig) : String :=
  "\x7b\"catalog\":" ++ jsonStr c.catalog ++
    ",\"targetCatalog\":" ++ jsonStr c.targetCatalog ++
    ",\"targetTag\":" ++ jsonStr c.targetTag ++
    ",\"targetCatalogSourceTemplate\":" ++ jsonStr c.targetCatalogSourceTemplate ++
    ",\"full\":" ++ jsonBool c.full ++
    ",\"packages\":" ++ jsonArr (c.includeConfig.packages.map jsonOfPackage) ++ "\x7d"

/-- `digestOfFilter` (pkg/operator/common.go): blank the target fields,
marshal, MD5, hex, first 32 characters. -/
def digestOfFilter (c : OperatorConfig) : String :=
  goSliceTo (md5hex (toBytes (jsonOfOperator
    { c with targetCatalog := "", targetTag := "", targetCatalogSourceTemplate := "" }))) 32

/-! ## Image references

Modelled from the spec: the `pkg/image` reference model is not among the
provided sources (only its callers are).  §4.1: a reference has the form
`[transport://][domain/]path[:tag][@algorithm:digest]`, default transport
`docker`; for `oci` (and other on-disk) transports the reference is a
filesystem path with no domain and no tag; parsing fails on an empty
string or an unknown transport. -/

structure ImageSpec where
  transport : String
  domain : String
  pathComponent : String
  tag : String
  algorithm : String
  digest : String
  reference : String
  referenceWithTransport : String
deriving DecidableEq, Repr

def ImageSpec.isImageByDigestOnly (s : ImageSpec) : Bool :=
  s.tag == "" && s.digest != ""

def ImageSpec.isImageByTagAndDigest (s : ImageSpec) : Bool :=
  s.tag != "" && s.digest != ""

def dockerPref : String := "docker://"
def ociPref : String := "oci://"
def filePref : String := "file://"
def dirPref : String := "dir://"

/-- split the `name[:tag]` suffix of the final path segment. -/
def splitNameTag (nameTag : String) : String × String :=
  let segs := goSplit nameTag "/"
  match segs.getLast? with
  | none => (nameTag, "")
  | some last =>
    match chSplitFirst [':'] last.data with
    | none => (nameTag, "")
    | some (n, t) => (goJoin (segs.dropLast ++ [⟨n⟩]) "/", ⟨t⟩)

/-- split `[domain/]path`: the first slash-separated component is the
registry domain when more components follow. -/
def splitDomain (name : String) : String × String :=
  match goSplit name "/" with
  | [] => ("", name)
  | [_] => ("", name)
  | d :: rest => (d, goJoin rest "/")

/-- `image.ParseRef`, modelled from spec §4.1. -/
def parseRef (s : String) : Except String ImageSpec :=
  if s == "" then .error "image reference is empty" else
  let split := chSplitFirst "://".data s.data
  let transport : String := match split with
    | some (b, _) => (⟨b⟩ : String) ++ "://"
    | none => dockerPref
  let rest : String := match split with
    | some (_, a) => ⟨a⟩
    | none => s
  if transport == ociPref || transport == filePref || transport == dirPref then
    .ok { transport := transport, domain := "", pathComponent := rest, tag := "",
          algorithm := "", digest := "", reference := rest,
          referenceWithTransport := transport ++ rest }
  else if transport != dockerPref then
    .error ("invalid reference: unknown transport " ++ transport)
  else
    match chSplitFirst ['@'] rest.data with
    | some (b, a) =>
      match chSplitFirst [':'] a with
      | none => .error ("invalid reference: malformed digest in " ++ s)
      | some (al, dg) =>
        let (name, tag) := splitNameTag ⟨b⟩
        let (dom, pc) := splitDomain name
        .ok { transport := transport, domain := dom, pathComponent := pc, tag := tag,
              algorithm := ⟨al⟩, digest := ⟨dg⟩, reference := rest,
              referenceWithTransport := transport ++ rest }
    | none =>
      let (name, tag) := splitNameTag rest
      let (dom, pc) := splitDomain name
      .ok { transport := transport, domain := dom, pathComponent := pc, tag := tag,
            algorithm := "", digest := "", reference := rest,
            referenceWithTransport := transport ++ rest }

/-! ## Related images and copy plans

Modelled from the spec (§3): `RelatedImage` and `CopyImage` as used by the
collectors and planners in the provided sources. -/

inductive ImageType where
  | ocpRelease
  | ocpReleaseContent
  | operatorCatalog
  | operatorBundle
  | operatorRelatedImage
  | generic
  | helmImage
  | cincinnatiGraph
  | kubeVirtContainer
deriving DecidableEq, Repr, BEq

structure RelatedImage where
  name : String := ""
  image : String := ""
  type : ImageType := .generic
  targetTag : String := ""
  targetCatalog : String := ""
  rebuiltTag : String := ""
  originFromOperatorCatalogOnDisk : Bool := false
deriving DecidableEq, Repr

structure CopyImageSchema where
  source : String
  destination : String
  origin : String
  type : ImageType
  rebuiltTag : String := ""
deriving DecidableEq, Repr

/-- the subset of `common.MirrorOptions` (pkg/common/options.go) consumed
by the embedded code paths. -/
structure MirrorOpts where
  mode : String := ""
  function : String := ""
  localStorageFQDN : String := ""
  destination : String := ""
  originalDestination : String := ""
  destinationRegistry : String := ""
  workingDir : String := ""
  workspace : String := ""
  fromFlag : String := ""
  configPath : String := ""
  sinceString : String := ""
  dryRun : Bool := false
  generateV1DestTags : Bool := false
  multiArch : String := ""
  removeSignatures : Bool := false
deriving DecidableEq, Repr

def isMirrorToDisk (o : MirrorOpts) : Bool := o.mode == "mirror-to-disk"
def isDiskToMirror (o : MirrorOpts) : Bool := o.mode == "disk-to-mirror"
def isMirrorToMirror (o : MirrorOpts) : Bool := o.mode == "mirror-to-mirror"
def isDelete (o : MirrorOpts) : Bool := o.function == "delete"

/-! ## Operator copy planner (pkg/operator/common.go) -/

/-- `Operator.destinationRegistry` (common.go:73). -/
def opDestinationRegistry (o : MirrorOpts) : String :=
  if o.destinationRegistry == "" then
    if isDiskToMirror o || isMirrorToMirror o then goTrimStart o.destination dockerPref
    else o.localStorageFQDN
  else o.destinationRegistry

/-- `saveCtlgToCacheRef` (common.go:438). -/
def saveCtlgToCacheRef (spec : ImageSpec) (img : RelatedImage) (cacheRegistry : String) :
    String :=
  let base :=
    if img.targetCatalog != "" then goJoin [cacheRegistry, img.targetCatalog] "/"
    else if spec.transport == ociPref then goJoin [cacheRegistry, img.name] "/"
    else goJoin [cacheRegistry, spec.pathComponent] "/"
  if img.targetTag != "" then base ++ ":" ++ img.targetTag
  else if spec.tag == "" && spec.transport == ociPref then base ++ ":latest"
  else if spec.isImageByDigestOnly then base ++ ":" ++ spec.algorithm ++ "-" ++ spec.digest
  else if spec.isImageByTagAndDigest then base ++ ":" ++ spec.tag
  else base ++ ":" ++ spec.tag

/-- `rebuiltCtlgRef` (common.go:466).  The source's second switch case
(`len(img.TargetTag) > 0`) has an empty body, so a catalog with a target
tag and no rebuilt tag gets no tag appended at all. -/
def rebuiltCtlgRef (spec : ImageSpec) (img : RelatedImage) (cacheRegistry : String) :
    String :=
  let base :=
    if img.targetCatalog != "" then goJoin [cacheRegistry, img.targetCatalog] "/"
    else if spec.transport == ociPref then goJoin [cacheRegistry, img.name] "/"
    else goJoin [cacheRegistry, spec.pathComponent] "/"
  if img.rebuiltTag != "" then base ++ ":" ++ img.rebuiltTag
  else if img.targetTag != "" then base
  else if spec.tag == "" && spec.transport == ociPref then base ++ ":latest"
  else if spec.isImageByDigestOnly then base ++ ":" ++ spec.algorithm ++ "-" ++ spec.digest
  else if spec.isImageByTagAndDigest then base ++ ":" ++ spec.tag
  else base ++ ":" ++ spec.tag

/-- `destCtlgRef` (common.go:500). -/
def destCtlgRef (spec : ImageSpec) (img : RelatedImage) (destinationRegistry : String) :
    String :=
  let base :=
    if img.targetCatalog != "" then goJoin [destinationRegistry, img.targetCatalog] "/"
    else if spec.transport == ociPref then goJoin [destinationRegistry, img.name] "/"
    else goJoin [destinationRegistry, spec.pathComponent] "/"
  if img.targetTag != "" then base ++ ":" ++ img.targetTag
  else if spec.tag == "" && spec.transport == ociPref then base ++ ":latest"
  else if spec.isImageByDigestOnly then base ++ ":" ++ spec.algorithm ++ "-" ++ spec.digest
  else if spec.isImageByTagAndDigest then base ++ ":" ++ spec.tag
  else base ++ ":" ++ spec.tag

/-- `CatalogImageDispatcher.dispatch` (common.go:410): the cache copy and
the destination copy of an operator catalog in mirror-to-mirror mode. -/
def catalogDispatch (cacheRegistry destinationRegistry : String) (img : RelatedImage) :
    Except String (List CopyImageSchema) :=
  match parseRef img.image with
  | .error e => .error e
  | .ok spec =>
    .ok [{ source := spec.referenceWithTransport,
           destination := saveCtlgToCacheRef spec img cacheRegistry,
           origin := spec.referenceWithTransport,
           type := img.type, rebuiltTag := img.rebuiltTag },
         { source := rebuiltCtlgRef spec img cacheRegistry,
           destination := destCtlgRef spec img destinationRegistry,
           origin := spec.referenceWithTransport,
           type := img.type, rebuiltTag := img.rebuiltTag }]

/-- `OtherImageDispatcher.dispatch` (common.go:376). -/
def otherDispatch (destinationRegistry : String) (img : RelatedImage) :
    Except String (List CopyImageSchema) :=
  match parseRef img.image with
  | .error e => .error e
  | .ok spec =>
    let src0 := spec.referenceWithTransport
    let dest0 := goJoin [destinationRegistry, spec.pathComponent] "/"
    let sd : String × String :=
      if spec.tag == "" && spec.transport == ociPref then (src0, dest0 ++ ":latest")
      else if spec.isImageByDigestOnly then
        (src0, dest0 ++ ":" ++ spec.algorithm ++ "-" ++ spec.digest)
      else if spec.isImageByTagAndDigest then
        (spec.transport ++ goJoin [spec.domain, spec.pathComponent] "/" ++ "@" ++
           spec.algorithm ++ ":" ++ spec.digest,
         dest0 ++ ":" ++ spec.tag)
      else (src0, dest0 ++ ":" ++ spec.tag)
    .ok [{ source := sd.1, destination := sd.2, origin := spec.referenceWithTransport,
           type := img.type }]

/-- loop body of `Operator.dispatchImagesForM2M` (common.go:325-363):
the copies contributed by one related image and the updated
`alreadyIncluded` set. -/
def dispatchM2MStep (opts : MirrorOpts) (img : RelatedImage) (seen : List String) :
    List CopyImageSchema × List String :=
  if img.image == "" then ([], seen)
  else
    let dispatched :=
      if img.type == .operatorCatalog then
        catalogDispatch (dockerPref ++ opts.localStorageFQDN) opts.destination img
      else otherDispatch opts.destination img
    match dispatched with
    | .error _ => ([], seen)
    | .ok copies =>
      if seen.contains img.image then ([], seen) else (copies, img.image :: seen)

/-- `Operator.dispatchImagesForM2M` (common.go:322), over the flattened
value list of the related-images map; `seen` is the `alreadyIncluded`
set. -/
def dispatchImagesForM2M (opts : MirrorOpts) :
    List RelatedImage → List String → List CopyImageSchema
  | [], _ => []
  | img :: rest, seen =>
    (dispatchM2MStep opts img seen).1 ++
      dispatchImagesForM2M opts rest (dispatchM2MStep opts img seen).2

/-- loop body of `Operator.prepareM2DCopyBatch` (common.go:259-317): the
copies contributed by one related image and the updated
`alreadyIncluded` set. -/
def opPrepareM2DStep (opts : MirrorOpts) (img : RelatedImage) (seen : List String) :
    List CopyImageSchema × List String :=
  if img.image == "" then ([], seen)
  else
    match parseRef img.image with
    | .error _ => ([], seen)
    | .ok spec =>
      let src0 := spec.referenceWithTransport
      let dest0 :=
        if img.type == .operatorCatalog && img.targetCatalog != "" then
          dockerPref ++ goJoin [opDestinationRegistry opts, img.targetCatalog] "/"
        else if img.type == .operatorCatalog && spec.transport == ociPref then
          dockerPref ++ goJoin [opDestinationRegistry opts, img.name] "/"
        else dockerPref ++ goJoin [opDestinationRegistry opts, spec.pathComponent] "/"
      let sd : String × String :=
        if img.type == .operatorCatalog && img.targetTag != "" then
          (src0, dest0 ++ ":" ++ img.targetTag)
        else if spec.tag == "" && spec.transport == ociPref then
          (src0, dest0 ++ "::latest")
        else if spec.isImageByDigestOnly then
          (src0, dest0 ++ ":" ++ spec.algorithm ++ "-" ++ spec.digest)
        else if spec.isImageByTagAndDigest then
          (spec.transport ++ goJoin [spec.domain, spec.pathComponent] "/" ++ "@" ++
             spec.algorithm ++ ":" ++ spec.digest,
           dest0 ++ ":" ++ spec.tag)
        else (src0, dest0 ++ ":" ++ spec.tag)
      if seen.contains img.image then ([], seen)
      else
        let planned := { source := sd.1, destination := sd.2,
                         origin := spec.referenceWithTransport,
                         type := img.type, rebuiltTag := img.rebuiltTag :
                         CopyImageSchema }
        let withCache :=
          if img.type == .operatorCatalog && isMirrorToMirror opts then
            [planned,
             { planned with destination :=
                 goReplaceOne sd.2 (opDestinationRegistry opts) opts.localStorageFQDN }]
          else [planned]
        (withCache, img.image :: seen)

/-- `Operator.prepareM2DCopyBatch` (common.go:256), over the flattened
value list of the related-images map; its Go signature returns an error
that is nil on every path. -/
def opPrepareM2DCopyBatch (opts : MirrorOpts) :
    List RelatedImage → List String → List CopyImageSchema
  | [], _ => []
  | img :: rest, seen =>
    (opPrepareM2DStep opts img seen).1 ++
      opPrepareM2DCopyBatch opts rest (opPrepareM2DStep opts img seen).2

/-! ## Catalog filtering decision (pkg/operator/common.go, Collect) -/

/-- `CatalogFilterResult` (spec §3; consumed by rebuild-catalogs.go). -/
structure CatalogFilterResult where
  operatorFilter : OperatorConfig
  filteredConfigPath : String
  toRebuild : Bool
deriving DecidableEq, Repr

/-- `isFullCatalog` (common.go:1083). -/
def isFullCatalog (catalog : OperatorConfig) : Bool :=
  catalog.includeConfig.packages.length == 0 && catalog.full

/-- the filtering step of `CollectOperator.Collect` (common.go:926-988)
for a catalog that is not already filtered: the declarative config that
related images are read from, the rebuilt tag recorded on the catalog's
`RelatedImage`, and the `CatalogFilterResult` stored in the FBC map.
`filterCatalog` abstracts the (external) declarative-config filter. -/
def collectFilterPhase {DC : Type} (filterCatalog : DC → OperatorConfig → DC)
    (op : OperatorConfig) (filterDigest : String) (filteredCatalogsDir : String)
    (originalDC : DC) : DC × String × CatalogFilterResult :=
  if !isFullCatalog op then
    let filteredDigestPath :=
      if filterDigest != "" then
        goJoin [filteredCatalogsDir, filterDigest, "catalog-config"] "/"
      else ""
    (filterCatalog originalDC op, filterDigest,
     { operatorFilter := op, filteredConfigPath := filteredDigestPath, toRebuild := true })
  else
    (originalDC, "",
     { operatorFilter := op, filteredConfigPath := "", toRebuild := false })

/-! ## Release copy planner (pkg/release, src/unnamed/part_010) -/

/-- `preparePathComponents` (part_010:423). -/
def preparePathComponents (spec : ImageSpec) (imgType : ImageType) (imgName : String) :
    String :=
  if imgType == .ocpRelease then "openshift/release-images"
  else if imgType == .cincinnatiGraph then spec.pathComponent
  else if imgType == .ocpReleaseContent && imgName != "" then "openshift/release"
  else if spec.isImageByDigestOnly then spec.pathComponent
  else ""

/-- `prepareTag` (part_010:439). -/
def prepareTag (spec : ImageSpec) (imgType : ImageType) (releaseTag imgName : String) :
    String :=
  if imgType == .ocpRelease || imgType == .cincinnatiGraph then
    if goLen spec.tag == 0 then releaseTag else spec.tag
  else if imgType == .ocpReleaseContent && imgName != "" then releaseTag ++ "-" ++ imgName
  else if spec.isImageByDigestOnly then
    let tag := spec.algorithm ++ "-" ++ spec.digest
    if goLen tag > 128 then goSliceTo tag 127 else tag
  else spec.tag

/-! ## Helm copy planner (pkg/helm, src/unnamed/part_010) -/

/-- `destinationRegistry` of the helm package (part_010:996). -/
def helmDestinationRegistry (opts : MirrorOpts) : String :=
  if isDiskToMirror opts || isMirrorToMirror opts then goTrimStart opts.destination dockerPref
  else opts.localStorageFQDN

/-- `prepareM2DCopyBatch` of the helm package (part_010:934). -/
def helmPrepareM2DCopyBatch (opts : MirrorOpts) :
    List RelatedImage → Except String (List CopyImageSchema)
  | [] => .ok []
  | img :: rest =>
    match parseRef img.image with
    | .error e => .error e
    | .ok spec =>
      let dest :=
        if spec.isImageByDigestOnly then
          let tag0 := spec.algorithm ++ "-" ++ spec.digest
          let tag := if goLen tag0 > 128 then goSliceTo tag0 127 else tag0
          dockerPref ++
            goJoin [helmDestinationRegistry opts, spec.pathComponent ++ ":" ++ tag] "/"
        else
          dockerPref ++
            goJoin [helmDestinationRegistry opts, spec.pathComponent ++ ":" ++ spec.tag] "/"
      (helmPrepareM2DCopyBatch opts rest).map
        (fun l => { source := spec.referenceWithTransport, destination := dest,
                    origin := img.image, type := img.type : CopyImageSchema } :: l)

/-! ## Additional-images collector (pkg/additional, src/pkg/mirror/const.go) -/

/-- the src/dest computation of one iteration of
`CollectAdditional.Collect` (const.go:61-112), per workflow mode. -/
def additionalSrcDest (opts : MirrorOpts) (spec : ImageSpec) : String × String :=
  if isMirrorToDisk opts || isMirrorToMirror opts then
    if spec.transport == dockerPref then
      if spec.isImageByDigestOnly then
        (spec.referenceWithTransport,
         goJoin [opts.localStorageFQDN, spec.pathComponent] "/" ++ ":" ++
           spec.algorithm ++ "-" ++ spec.digest)
      else if spec.isImageByTagAndDigest then
        (goJoin [spec.domain, spec.pathComponent] "/" ++ "@" ++ spec.algorithm ++ ":" ++
           spec.digest,
         goJoin [opts.localStorageFQDN, spec.pathComponent] "/" ++ ":" ++ spec.tag)
      else
        (spec.referenceWithTransport,
         goJoin [opts.localStorageFQDN, spec.pathComponent] "/" ++ ":" ++ spec.tag)
    else
      (spec.referenceWithTransport,
       goJoin [opts.localStorageFQDN, goTrimStart spec.pathComponent "/"] "/" ++
         ":latest")
  else if isDiskToMirror opts then
    if spec.transport == dockerPref then
      if spec.isImageByDigestOnly then
        (goJoin [opts.localStorageFQDN,
           spec.pathComponent ++ ":" ++ spec.algorithm ++ "-" ++ spec.digest] "/",
         if opts.generateV1DestTags then
           goJoin [opts.destination, spec.pathComponent ++ ":latest"] "/"
         else
           goJoin [opts.destination,
             spec.pathComponent ++ ":" ++ spec.algorithm ++ "-" ++ spec.digest] "/")
      else if spec.isImageByTagAndDigest then
        (goJoin [opts.localStorageFQDN, spec.pathComponent] "/" ++ ":" ++ spec.tag,
         goJoin [opts.destination, spec.pathComponent] "/" ++ ":" ++ spec.tag)
      else
        (goJoin [opts.localStorageFQDN, spec.pathComponent] "/" ++ ":" ++ spec.tag,
         goJoin [opts.destination, spec.pathComponent] "/" ++ ":" ++ spec.tag)
    else
      (goJoin [opts.localStorageFQDN, goTrimStart spec.pathComponent "/"] "/" ++
         ":latest",
       goJoin [opts.destination, goTrimStart spec.pathComponent "/"] "/" ++ ":latest")
  else ("", "")

/-- the tail of one iteration of `CollectAdditional.Collect`
(const.go:113-131): reject empty src/dest, re-parse both, and emit the
planned copy with the configured name as its origin. -/
def additionalFinish (name : String) (sd : String × String) :
    Option (Except String CopyImageSchema) :=
  if sd.1 == "" || sd.2 == "" then
    some (.error ("unable to determine src " ++ sd.1 ++ " or dst " ++ sd.2 ++
      " for " ++ name))
  else
    match parseRef sd.1 with
    | .error e => some (.error e)
    | .ok srcSpec =>
      match parseRef sd.2 with
      | .error e => some (.error e)
      | .ok destSpec =>
        some (.ok { source := srcSpec.referenceWithTransport,
                    destination := destSpec.referenceWithTransport,
                    origin := name, type := .generic })

/-- the per-image planning step of `CollectAdditional.Collect`
(const.go:52-131): `none` means the entry was skipped with a warning,
`some (.error _)` aborts the whole collection, `some (.ok c)` plans the
copy.  The source re-parses the image inside the disk-to-mirror branch;
that re-parse operates on the string the first parse already accepted. -/
def additionalPlanOne (opts : MirrorOpts) (name : String) :
    Option (Except String CopyImageSchema) :=
  match parseRef name with
  | .error _ => none
  | .ok spec => additionalFinish name (additionalSrcDest opts spec)

/-- `CollectAdditional.Collect` (const.go:46) over the configured image
names. -/
def additionalCollect (opts : MirrorOpts) : List String → Except String (List CopyImageSchema)
  | [] => .ok []
  | n :: rest =>
    match additionalPlanOne opts n with
    | none => additionalCollect opts rest
    | some (.error e) => .error e
    | some (.ok c) => (additionalCollect opts rest).map (fun l => c :: l)

/-- whether an `Except` carries a success value. -/
def exceptIsOk {ε α : Type} : Except ε α → Bool
  | .ok _ => true
  | .error _ => false

/-! ## Go errors

`fmt.Errorf("%w", err)` always returns a non-nil error, even when `err`
is nil (the verb then fails to wrap and renders as `%!w(<nil>)`); a Go
`error` value is modelled as `Option GoError` with `none` for nil. -/

inductive GoError where
  /-- `EmptyHistoryError` — modelled from the spec: its type lives outside
  the provided sources; §4.11 calls it "a distinct error surface" that
  `errors.Is` can single out. -/
  | emptyHistory (msg : String)
  /-- any other error value. -/
  | generic (msg : String)
  /-- `fmt.Errorf("%w", e)` applied to a non-nil `e`. -/
  | wrapped (e : GoError)
  /-- `fmt.Errorf("%w", err)` applied to a nil `err`: a non-nil error that
  wraps nothing. -/
  | wrapNil
deriving DecidableEq, Repr

/-- `fmt.Errorf("%w", err)` : never nil. -/
def goWrap : Option GoError → Option GoError
  | some e => some (.wrapped e)
  | none => some .wrapNil

/-- `errors.Is(err, &EmptyHistoryError{})`, unwrapping `%w` chains. -/
def GoError.isEmptyHistory : GoError → Bool
  | .emptyHistory _ => true
  | .wrapped e => e.isEmptyHistory
  | .generic _ => false
  | .wrapNil => false

def errIsEmptyHistory : Option GoError → Bool
  | some e => e.isEmptyHistory
  | none => false

/-! ## History store (pkg/history/history.go) -/

/-- a directory entry as seen by `os.ReadDir`. -/
structure DirEntry where
  entryName : String
  isDir : Bool
deriving DecidableEq, Repr

/-- the on-disk state of the history directory: its entries, and each
file's lines (one blob digest per line). -/
structure HistoryFS where
  entries : List DirEntry
  fileLines : String → List String

/-- `isHistoryFile` (history.go:129). -/
def isHistoryFile (f : DirEntry) : Bool :=
  !f.isDir && goStartsWith f.entryName ".history-"

/-- RFC 3339 timestamp of form `YYYY-MM-DDTHH:MM:SSZ`, the shape the
store itself writes via `Format(time.RFC3339)` in UTC; the parsed value
is the digit string read as a number, which orders chronologically.
Modelled from Go's `time.Parse(time.RFC3339, ·)`. -/
def parseRFC3339 (s : String) : Option Nat :=
  let cs := s.data
  let digitAt (i : Nat) : Bool := (cs.getD i ' ').isDigit
  let sep (i : Nat) (c : Char) : Bool := cs.getD i ' ' == c
  if cs.length == 20 && digitAt 0 && digitAt 1 && digitAt 2 && digitAt 3 &&
      sep 4 '-' && digitAt 5 && digitAt 6 && sep 7 '-' && digitAt 8 && digitAt 9 &&
      sep 10 'T' && digitAt 11 && digitAt 12 && sep 13 ':' && digitAt 14 && digitAt 15 &&
      sep 16 ':' && digitAt 17 && digitAt 18 && sep 19 'Z' then
    some ((cs.filter Char.isDigit).foldl (fun n c => 10 * n + (c.toNat - 48)) 0)
  else none

/-- `getFileDate` (history.go:133): even a successfully parsed date is
returned together with `fmt.Errorf("%w", err)` of a nil `err`, which is
non-nil. -/
def getFileDate (f : DirEntry) : Nat × Option GoError :=
  match parseRFC3339 (goTrimStart f.entryName ".history-") with
  | none => (0, goWrap (some (.generic ("unable to parse time from filename " ++ f.entryName))))
  | some d => (d, goWrap none)

/-- the scanning loop of `getHistoryFile` (history.go:101-120), tracking
the latest matching file; any error from `getFileDate` aborts. -/
def getHistoryFileLoop (before : Nat) :
    List DirEntry → Option (DirEntry × Nat) → Except GoError (Option (DirEntry × Nat))
  | [], latest => .ok latest
  | f :: rest, latest =>
    if isHistoryFile f then
      match getFileDate f with
      | (_, some e) => .error (.wrapped e)
      | (ft, none) =>
        let latestTime := match latest with | some (_, t) => t | none => 0
        if before != 0 then
          if decide (latestTime < ft) && decide (ft < before) then
            getHistoryFileLoop before rest (some (f, ft))
          else getHistoryFileLoop before rest latest
        else if decide (latestTime < ft) then getHistoryFileLoop before rest (some (f, ft))
        else getHistoryFileLoop before rest latest
    else getHistoryFileLoop before rest latest

/-- `getHistoryFile` (history.go:91): selected file path and error; the
success return (history.go:126) is `fmt.Errorf("%w", err)` of the nil
`os.ReadDir` error, again non-nil. -/
def getHistoryFile (fs : HistoryFS) (before : Nat) : String × Option GoError :=
  match getHistoryFileLoop before fs.entries none with
  | .error e => ("", some e)
  | .ok none => ("", some (.emptyHistory "no history metadata found"))
  | .ok (some (f, _)) => (f.entryName, goWrap none)

/-- `history.Read` (history.go:60): the digest set (as the list of lines)
when a file is opened, paired with the Go error. -/
def historyRead (fs : HistoryFS) (before : Nat) :
    Option (List String) × Option GoError :=
  match getHistoryFile fs before with
  | (_, some e) =>
    if e.isEmptyHistory then (some [], some e)
    else (none, goWrap (some e))
  | (file, none) => (some (fs.fileLines file), none)

/-- outcome of `history.Append` (history.go:143): the returned map (as a
list of digests), the returned Go error, and the lines written to the new
history file (`none` when no file was written).  `createErr` is the error
the injected `FileCreator` produces. -/
structure AppendResult where
  blobs : Option (List String)
  err : Option GoError
  written : Option (List String)
deriving Repr

/-- `history.Append` (history.go:143).  After a successful flush it still
returns `fmt.Errorf("%w", err)` of a nil `err`. -/
def historyAppend (fs : HistoryFS) (before : Nat) (createErr : Option GoError)
    (blobsToAppend : List String) : AppendResult :=
  match historyRead fs before with
  | (read, readErr) =>
    if readErr.isSome && !errIsEmptyHistory readErr then
      { blobs := none, err := goWrap readErr, written := none }
    else
      let merged := (read.getD []) ++
        blobsToAppend.filter (fun b => !(read.getD []).contains b)
      match createErr with
      | some e => { blobs := some merged, err := goWrap (some e), written := none }
      | none => { blobs := some merged, err := goWrap none, written := some merged }

/-- `OSFileCreator.Create` (history.go:186) returns
`fmt.Errorf("%w", err)` even when `os.Create` succeeded, so its error is
never nil. -/
def osFileCreatorErr (osCreateErr : Option GoError) : Option GoError :=
  goWrap osCreateErr

/-- step 4 of `MirrorArchive.BuildArchive` (src/unnamed/part_003:120-126):
read the history, aborting on any error other than the empty-history
error, and otherwise continue with the read set (empty on first run) as
the blob filter. -/
def buildArchiveReadHistory (fs : HistoryFS) (before : Nat) :
    Except GoError (List String) :=
  match historyRead fs before with
  | (blobsInHistory, err) =>
    if err.isSome && !errIsEmptyHistory err then
      .error (.wrapped (err.getD .wrapNil))
    else .ok (blobsInHistory.getD [])

/-- step 5 of `MirrorArchive.BuildArchive` (src/unnamed/part_003:131-137):
append the added blobs to the history, treating any non-nil `Append`
error as fatal for the whole archive build. -/
def buildArchiveHistoryUpdate (fs : HistoryFS) (before : Nat)
    (createErr : Option GoError) (addedBlobs : List String) :
    Except GoError Unit :=
  match (historyAppend fs before createErr addedBlobs).err with
  | some e => .error (.wrapped e)
  | none => .ok ()

/-! ## Archive extraction (pkg/archive, src/unnamed/part_003) -/

/-- `filepath.Dir`: everything before the final path separator. -/
def filepathDir (s : String) : String :=
  let segs := goSplit s "/"
  if segs.length ≤ 1 then "." else goJoin segs.dropLast "/"

/-- `filepath.Join` for two non-degenerate components. -/
def filepathJoin (a b : String) : String := a ++ "/" ++ b

inductive TarType where
  | reg
  | dir
  | other
deriving DecidableEq, Repr

structure TarHeader where
  hdrName : String
  typeflag : TarType
  mode : Nat
deriving DecidableEq, Repr

/-- where an extracted entry lands: the destination path and the mode
passed to `os.OpenFile`. -/
inductive ExtractAction where
  | toWorkingDir (dst : String) (mode : Nat)
  | toCache (dst : String) (mode : Nat)
  | ignored
deriving DecidableEq, Repr

/-- the per-entry body of `MirrorUnArchiver.Unarchive`
(src/unnamed/part_003:292-329): only regular files are extracted; a name
containing `working-dir` goes under the working directory's parent, else
a name containing `docker/registry/v2` goes into the cache directory,
everything else is skipped; the file is opened with the header's mode
bitwise-or `0755`. -/
def classifyEntry (workingDirArg cacheDir : String) (h : TarHeader) : ExtractAction :=
  if h.typeflag != TarType.reg then .ignored
  else if goContains h.hdrName "working-dir" then
    .toWorkingDir (filepathJoin (filepathDir workingDirArg) h.hdrName)
      (Nat.lor h.mode 0o755)
  else if goContains h.hdrName "docker/registry/v2" then
    .toCache (filepathJoin cacheDir h.hdrName) (Nat.lor h.mode 0o755)
  else .ignored

/-! ## Mirror command validation (pkg/cli/mirror-validate.go) -/

def keyWordsList : List String :=
  ["cluster-resources", "dry-run", "graph-preparation", "helm", "hold-operator",
   "hold-release", "delete", "logs", "operator-catalogs", "release-images", "signatures"]

/-- `checkKeyWord` (mirror-validate.go:77). -/
def checkKeyWord (kws : List String) (check : String) : String :=
  match kws.find? (fun k => goContains check k) with
  | some k => k
  | none => ""

/-- `argsContain` (mirror-validate.go:108). -/
def argsContain (args : List String) (value : String) : Option String :=
  args.find? (fun a => goContains a value)

/-- `time.Parse(time.DateOnly, ·)` success, modelled from Go: the
`yyyy-MM-dd` shape. -/
def parseDateOnly (s : String) : Bool :=
  let cs := s.data
  let digitAt (i : Nat) : Bool := (cs.getD i ' ').isDigit
  let sep (i : Nat) : Bool := cs.getD i ' ' == '-'
  cs.length == 10 && digitAt 0 && digitAt 1 && digitAt 2 && digitAt 3 && sep 4 &&
    digitAt 5 && digitAt 6 && sep 7 && digitAt 8 && digitAt 9

/-- `checkAndSetModeD2M` (mirror-validate.go:117). -/
def checkAndSetModeD2M (args : List String) (opts : MirrorOpts) (set : Bool) :
    Except String (Bool × MirrorOpts) :=
  if !set && opts.fromFlag != "" && opts.workspace == "" then
    if !goContains opts.fromFlag filePref then
      .error "when using --from it must have a file:// prefix (disk-to-mirror)"
    else
      match argsContain args dockerPref with
      | some dest =>
        let optsD2M := { opts with
          mode := "disk-to-mirror"
          workingDir := filepathJoin (goTrimStart opts.fromFlag filePref) "working-dir"
          destination := dest
          originalDestination := dest
          destinationRegistry := goTrimStart dest dockerPref }
        .ok (true, optsD2M)
      | none =>
        .error "when using --from ensure the destination has a docker:// prefix (disk-to-mirror)"
  else .ok (false, opts)

/-- `checkAndSetModeM2D` (mirror-validate.go:137). -/
def checkAndSetModeM2D (args : List String) (opts : MirrorOpts) (set : Bool) :
    Except String (Bool × MirrorOpts) :=
  if !set && opts.fromFlag == "" && opts.workspace == "" then
    match argsContain args filePref with
    | some dest =>
      let optsM2D := { opts with
        mode := "mirror-to-disk"
        workingDir := filepathJoin (goTrimStart dest filePref) "working-dir"
        destination := goTrimStart dest filePref
        originalDestination := dest }
      .ok (true, optsM2D)
    | none => .error "ensure destination has a file:// prefix (mirror-to-disk)"
  else .ok (false, opts)

/-- `checkAndSetModeM2M` (mirror-validate.go:153). -/
def checkAndSetModeM2M (args : List String) (opts : MirrorOpts) (set : Bool) :
    Except String (Bool × MirrorOpts) :=
  if !set && opts.fromFlag == "" && opts.workspace != "" then
    if goContains opts.workspace filePref then
      match argsContain args dockerPref with
      | some dest =>
        let optsM2M := { opts with
          mode := "mirror-to-mirror"
          workingDir := filepathJoin (goTrimStart opts.workspace filePref) "working-dir"
          destination := dest
          originalDestination := dest
          destinationRegistry := goTrimStart dest dockerPref }
        .ok (true, optsM2M)
      | none => .error "ensure the destination has a docker:// prefix (mirror-to-mirror)"
    else .error "when using the --workspace flag ensure it has a file:// prefix (mirror-to-mirror)"
  else .ok (false, opts)

/-- `setModeAndDestination` (mirror-validate.go:86). -/
def setModeAndDestination (args : List String) (opts : MirrorOpts) :
    Except String MirrorOpts :=
  match checkAndSetModeD2M args opts false with
  | .error e => .error e
  | .ok (set1, opts1) =>
    match checkAndSetModeM2D args opts1 set1 with
    | .error e => .error e
    | .ok (set2, opts2) =>
      match checkAndSetModeM2M args opts2 set2 with
      | .error e => .error e
      | .ok (_, opts3) =>
        if opts3.dryRun then .ok { opts3 with mode := "mirror-to-disk" }
        else .ok opts3

/-- `MirrorValidate.mirrorOptionsValidate` (mirror-validate.go:65); the
`--from`/`--since` combination only logs a warning. -/
def mirrorOptionsValidate (opts : MirrorOpts) : Option String :=
  if opts.sinceString != "" then
    if !parseDateOnly opts.sinceString then
      some "--since flag needs to be in format yyyy-MM-dd"
    else none
  else none

/-- `MirrorValidate.CheckArgs` (mirror-validate.go:22): the complete
argument validation the mirror flow controller runs before any pipeline
phase. -/
def mirrorCheckArgs (args : List String) (opts : MirrorOpts) :
    Except String MirrorOpts :=
  if goLen opts.configPath == 0 then .error "use the --config flag it is mandatory"
  else
    match setModeAndDestination args opts with
    | .error e => .error e
    | .ok opts1 =>
      if goContains opts1.originalDestination filePref && opts1.fromFlag == "" &&
          checkKeyWord keyWordsList opts1.originalDestination != "" then
        .error ("the destination contains an internal oc-mirror keyword " ++
          checkKeyWord keyWordsList opts1.originalDestination)
      else
        match mirrorOptionsValidate opts1 with
        | some e => .error e
        | none =>
          .ok { opts1 with
            multiArch := "system"
            removeSignatures := true
            function := "mirror" }

/-! ## Concrete fixtures used by the claim theorems and witnesses -/

/-- spec §8 scenario 3: a renamed catalog mirrored mirror-to-mirror. -/
def c1Img : RelatedImage :=
  { image := "quay.io/ns/src:v1", type := .operatorCatalog,
    targetCatalog := "my/ctlg", targetTag := "v1-filtered" }

def c1Opts : MirrorOpts :=
  { mode := "mirror-to-mirror", localStorageFQDN := "localhost:55000",
    destination := "docker://dest" }

def c1Spec : ImageSpec :=
  { transport := "docker://", domain := "quay.io", pathComponent := "ns/src",
    tag := "v1", algorithm := "", digest := "",
    reference := "quay.io/ns/src:v1",
    referenceWithTransport := "docker://quay.io/ns/src:v1" }

def c1CacheCopy : CopyImageSchema :=
  { source := "docker://quay.io/ns/src:v1",
    destination := "docker://localhost:55000/my/ctlg:v1-filtered",
    origin := "docker://quay.io/ns/src:v1", type := .operatorCatalog }

def c1DestCopy : CopyImageSchema :=
  { source := "docker://localhost:55000/my/ctlg",
    destination := "docker://dest/my/ctlg:v1-filtered",
    origin := "docker://quay.io/ns/src:v1", type := .operatorCatalog }

def c2PkgA : IncludePackage := { name := "opa", channels := [], minVersion := "", maxVersion := "" }

def c2PkgB : IncludePackage := { name := "opb", channels := [], minVersion := "", maxVersion := "" }

def c2OpAB : OperatorConfig :=
  { catalog := "registry.example.com/ns/ctlg:v1", targetCatalog := "tc", targetTag := "tt",
    targetCatalogSourceTemplate := "", full := false, includeConfig := ⟨[c2PkgA, c2PkgB]⟩ }

/-- the same selector with the two packages in the opposite order. -/
def c2OpBA : OperatorConfig := { c2OpAB with includeConfig := ⟨[c2PkgB, c2PkgA]⟩ }

/-- a digest-only reference whose `<algorithm>-<hex-digest>` concatenation
is 200 characters long (`sha256` + `-` + 193 digest characters). -/
def c3Spec : ImageSpec :=
  { transport := "docker://", domain := "quay.io", pathComponent := "x/y", tag := "",
    algorithm := "sha256", digest := ⟨List.replicate 193 'a'⟩,
    reference := "", referenceWithTransport := "" }

/-- a history directory holding one well-formed history file recording
`sha256:aaa`. -/
def c4FS : HistoryFS :=
  { entries := [⟨".history-2026-01-01T00:00:00Z", false⟩],
    fileLines := fun _ => ["sha256:aaa"] }

def c5FSone : HistoryFS :=
  { entries := [⟨".history-2026-02-02T00:00:00Z", false⟩],
    fileLines := fun _ => ["sha256:aaa", "sha256:bbb"] }

def c5FSempty : HistoryFS := { entries := [], fileLines := fun _ => [] }

/-- a catalog selector with `full=true` and no packages. -/
def c6Op : OperatorConfig :=
  { catalog := "registry.example.com/ns/ctlg:v1", targetCatalog := "", targetTag := "",
    targetCatalogSourceTemplate := "", full := true, includeConfig := ⟨[]⟩ }

def c7Opts : MirrorOpts :=
  { mode := "mirror-to-disk", localStorageFQDN := "localhost:55000",
    destination := "file://archive" }

/-- a related image with an empty reference string. -/
def c7Empty : RelatedImage := { image := "" }

/-- a reference that fails to parse (digest separator without algorithm
separator). -/
def c7BadRef : String := "quay.io/x/y@sha256"

def c7Good : RelatedImage := { image := "quay.io/app/img:v2", type := .generic }

def c8Opts : MirrorOpts :=
  { configPath := "isc.yaml", fromFlag := "file:///tmp/a", workspace := "file:///tmp/b" }

def c8Args : List String := ["docker://registry.example.com"]

/-- the record `CheckArgs` returns for `c8Args`/`c8Opts`. -/
def c8Result : MirrorOpts :=
  { c8Opts with multiArch := "system", removeSignatures := true, function := "mirror" }

/-- a tar entry whose name begins with `docker/registry/v2/` but also
contains `working-dir` as a repository path component. -/
def c9Hdr : TarHeader :=
  { hdrName := "docker/registry/v2/repositories/working-dir/x/data",
    typeflag := .reg, mode := 0o644 }

/-! ## Helper lemmas -/

theorem strAppendAssoc (a b c : String) : a ++ b ++ c = a ++ (b ++ c) := by
  cases a with
  | mk da =>
    cases b with
    | mk db =>
      cases c with
      | mk dc =>
        show String.mk ((da ++ db) ++ dc) = String.mk (da ++ (db ++ dc))
        rw [List.append_assoc]

theorem goWrap_isSome (e : Option GoError) : (goWrap e).isSome = true := by
  cases e <;> rfl

/-- `goJoin` on a two-element list is plain concatenation. -/
theorem goJoin_pair (a b sep : String) : goJoin [a, b] sep = a ++ sep ++ b := rfl

/-- bits already present in `a` survive `· ||| a` followed by `· &&& b`
whenever `b`'s bits are a subset of `a`'s. -/
theorem lor_land_superset (m a b : Nat) (h : Nat.land a b = b) :
    Nat.land (Nat.lor m a) b = b := by
  have h2 : a &&& b = b := h
  apply Nat.eq_of_testBit_eq
  intro i
  show ((m ||| a) &&& b).testBit i = b.testBit i
  have hi : (Nat.testBit a i && Nat.testBit b i) = Nat.testBit b i := by
    rw [← Nat.testBit_land, h2]
  rw [Nat.testBit_land, Nat.testBit_lor]
  cases hb : Nat.testBit b i with
  | false => simp
  | true =>
    have ha : Nat.testBit a i = true := by
      rw [hb] at hi
      simpa using hi
    simp [ha]

/-! ### MD5 validation against RFC 1321 test vectors -/

set_option maxRecDepth 100000 in
theorem md5hex_rfc_empty : md5hex (toBytes "") = "d41d8cd98f00b204e9800998ecf8427e" := by
  decide

set_option maxRecDepth 100000 in
theorem md5hex_rfc_abc : md5hex (toBytes "abc") = "900150983cd24fb0d6963f7d28e17f72" := by
  decide

set_option maxRecDepth 100000 in
theorem md5hex_rfc_fox :
    md5hex (toBytes "The quick brown fox jumps over the lazy dog") =
      "9e107d9d372bb6826bd81d3542a419d6" := by
  decide

/-! ## Claim theorems -/

/-- any reference a parser accepts is non-empty. -/
theorem parseRef_ok_ne_empty {s : String} {spec : ImageSpec}
    (h : parseRef s = .ok spec) : (s == "") = false := by
  cases hs : s == "" with
  | false => rfl
  | true => simp [parseRef, hs] at h

/-- the shared repository-path switch of the three catalog reference
builders lands under the given registry. -/
theorem base_under (spec : ImageSpec) (img : RelatedImage) (reg : String) :
    ∃ x, (if img.targetCatalog != "" then goJoin [reg, img.targetCatalog] "/"
          else if spec.transport == ociPref then goJoin [reg, img.name] "/"
          else goJoin [reg, spec.pathComponent] "/") = reg ++ "/" ++ x := by
  split
  · exact ⟨img.targetCatalog, rfl⟩
  · split
    · exact ⟨img.name, rfl⟩
    · exact ⟨spec.pathComponent, rfl⟩

theorem saveCtlg_under_registry (spec : ImageSpec) (img : RelatedImage) (reg : String) :
    ∃ r, saveCtlgToCacheRef spec img reg = reg ++ "/" ++ r := by
  obtain ⟨x, hx⟩ := base_under spec img reg
  simp only [saveCtlgToCacheRef, hx]
  split
  · exact ⟨x ++ (":" ++ img.targetTag), by simp only [strAppendAssoc]⟩
  · split
    · exact ⟨x ++ ":latest", by simp only [strAppendAssoc]⟩
    · split
      · exact ⟨x ++ (":" ++ (spec.algorithm ++ ("-" ++ spec.digest))), by
          simp only [strAppendAssoc]⟩
      · split
        · exact ⟨x ++ (":" ++ spec.tag), by simp only [strAppendAssoc]⟩
        · exact ⟨x ++ (":" ++ spec.tag), by simp only [strAppendAssoc]⟩

theorem destCtlg_under_registry (spec : ImageSpec) (img : RelatedImage) (reg : String) :
    ∃ r, destCtlgRef spec img reg = reg ++ "/" ++ r := by
  obtain ⟨x, hx⟩ := base_under spec img reg
  simp only [destCtlgRef, hx]
  split
  · exact ⟨x ++ (":" ++ img.targetTag), by simp only [strAppendAssoc]⟩
  · split
    · exact ⟨x ++ ":latest", by simp only [strAppendAssoc]⟩
    · split
      · exact ⟨x ++ (":" ++ (spec.algorithm ++ ("-" ++ spec.digest))), by
          simp only [strAppendAssoc]⟩
      · split
        · exact ⟨x ++ (":" ++ spec.tag), by simp only [strAppendAssoc]⟩
        · exact ⟨x ++ (":" ++ spec.tag), by simp only [strAppendAssoc]⟩

/-- the catalog dispatcher's two planned copies, spelled out. -/
theorem catalogDispatch_ok (cacheReg destReg : String) (img : RelatedImage)
    (spec : ImageSpec) (hparse : parseRef img.image = .ok spec) :
    catalogDispatch cacheReg destReg img = .ok
      [{ source := spec.referenceWithTransport,
         destination := saveCtlgToCacheRef spec img cacheReg,
         origin := spec.referenceWithTransport,
         type := img.type, rebuiltTag := img.rebuiltTag },
       { source := rebuiltCtlgRef spec img cacheReg,
         destination := destCtlgRef spec img destReg,
         origin := spec.referenceWithTransport,
         type := img.type, rebuiltTag := img.rebuiltTag }] := by
  simp only [catalogDispatch, hparse]

/-- C1: in mirror-to-mirror mode, every operator-catalog related image
whose reference parses is dispatched to exactly two retained CopyImages:
one whose destination lies under the local cache registry and one whose
destination lies under the remote destination registry, both of type
OperatorCatalog; for the renamed catalog of spec §8 scenario 3
(`targetCatalog my/ctlg`, `targetTag v1-filtered`) the two destinations
are `docker://localhost:55000/my/ctlg:v1-filtered` and
`docker://dest/my/ctlg:v1-filtered`. -/
theorem operator_catalog_m2m_two_copies :
    (∀ (opts : MirrorOpts) (img : RelatedImage) (spec : ImageSpec),
       img.type = .operatorCatalog →
       parseRef img.image = .ok spec →
       ∃ cacheCopy destCopy,
         catalogDispatch (dockerPref ++ opts.localStorageFQDN) opts.destination img =
           .ok [cacheCopy, destCopy] ∧
         (∃ r, cacheCopy.destination = dockerPref ++ opts.localStorageFQDN ++ "/" ++ r) ∧
         (∃ r, destCopy.destination = opts.destination ++ "/" ++ r) ∧
         cacheCopy.type = .operatorCatalog ∧ destCopy.type = .operatorCatalog ∧
         (∀ (rest : List RelatedImage) (seen : List String),
           seen.contains img.image = false →
           dispatchImagesForM2M opts (img :: rest) seen =
             cacheCopy :: destCopy :: dispatchImagesForM2M opts rest (img.image :: seen))) ∧
    dispatchImagesForM2M c1Opts [c1Img] [] = [c1CacheCopy, c1DestCopy] := by
  constructor
  · intro opts img spec htype hparse
    refine ⟨_, _, catalogDispatch_ok (dockerPref ++ opts.localStorageFQDN)
      opts.destination img spec hparse, ?_, ?_, ?_, ?_, ?_⟩
    · exact saveCtlg_under_registry spec img (dockerPref ++ opts.localStorageFQDN)
    · exact destCtlg_under_registry spec img opts.destination
    · exact htype
    · exact htype
    · intro rest seen hseen
      have hne : (img.image == "") = false := parseRef_ok_ne_empty hparse
      have htypeb : (img.type == ImageType.operatorCatalog) = true := by
        rw [htype]; rfl
      have hstep : dispatchM2MStep opts img seen =
          ([{ source := spec.referenceWithTransport,
              destination := saveCtlgToCacheRef spec img (dockerPref ++ opts.localStorageFQDN),
              origin := spec.referenceWithTransport,
              type := img.type, rebuiltTag := img.rebuiltTag },
            { source := rebuiltCtlgRef spec img (dockerPref ++ opts.localStorageFQDN),
              destination := destCtlgRef spec img opts.destination,
              origin := spec.referenceWithTransport,
              type := img.type, rebuiltTag := img.rebuiltTag }], img.image :: seen) := by
        simp only [dispatchM2MStep, hne, Bool.false_eq_true, if_false, htypeb, if_true]
        rw [catalogDispatch_ok (dockerPref ++ opts.localStorageFQDN)
          opts.destination img spec hparse]
        simp only [hseen, Bool.false_eq_true, if_false]
      simp only [dispatchImagesForM2M]
      rw [hstep]
      rfl
  · rfl

theorem operator_catalog_m2m_two_copies_witness :
    ∃ cacheCopy destCopy,
      catalogDispatch (dockerPref ++ c1Opts.localStorageFQDN) c1Opts.destination c1Img =
        .ok [cacheCopy, destCopy] ∧
      (∃ r, cacheCopy.destination = dockerPref ++ c1Opts.localStorageFQDN ++ "/" ++ r) ∧
      (∃ r, destCopy.destination = c1Opts.destination ++ "/" ++ r) ∧
      cacheCopy.type = .operatorCatalog ∧ destCopy.type = .operatorCatalog ∧
      (∀ (rest : List RelatedImage) (seen : List String),
        seen.contains c1Img.image = false →
        dispatchImagesForM2M c1Opts (c1Img :: rest) seen =
          cacheCopy :: destCopy :: dispatchImagesForM2M c1Opts rest (c1Img.image :: seen)) :=
  operator_catalog_m2m_two_copies.1 c1Opts c1Img c1Spec rfl rfl

/-- C10: `history.Append` never returns a nil error: every path — the
read-failure path, the create-failure path, the write/flush-failure
paths, and the success path (which returns `fmt.Errorf("%w", err)` of a
nil `err`) — yields a non-nil error value, so the archive builder's
history-update step, which treats any non-nil `Append` error as fatal,
always fails and can never observe a nil error. -/
theorem historyAppend_error_never_nil :
    (∀ (fs : HistoryFS) (before : Nat) (createErr : Option GoError)
       (blobs : List String),
       (historyAppend fs before createErr blobs).err.isSome = true) ∧
    (∀ (fs : HistoryFS) (before : Nat) (createErr : Option GoError)
       (blobs : List String),
       ∃ e, buildArchiveHistoryUpdate fs before createErr blobs = .error e) := by
  have h1 : ∀ (fs : HistoryFS) (before : Nat) (createErr : Option GoError)
      (blobs : List String),
      (historyAppend fs before createErr blobs).err.isSome = true := by
    intro fs before createErr blobs
    unfold historyAppend
    rcases historyRead fs before with ⟨read, readErr⟩
    dsimp only
    by_cases hguard : (readErr.isSome && !errIsEmptyHistory readErr) = true
    · simp only [hguard, if_pos]
      exact goWrap_isSome readErr
    · simp only [hguard, if_neg, Bool.not_eq_true]
      cases createErr with
      | some e => exact goWrap_isSome (some e)
      | none => exact goWrap_isSome none
  refine ⟨h1, ?_⟩
  intro fs before createErr blobs
  unfold buildArchiveHistoryUpdate
  cases herr : (historyAppend fs before createErr blobs).err with
  | none =>
    have := h1 fs before createErr blobs
    rw [herr] at this
    simp at this
  | some e => exact ⟨.wrapped e, rfl⟩

/-- C4: the recorded-history invariant `history(after) = history(before)
∪ blobs_added` is unreachable in the code: with a pre-existing history
file the build aborts while reading history (`getFileDate` returns
`fmt.Errorf("%w", nil)` even on a successful parse), and `Append` —
wired to `OSFileCreator.Create`, whose error is likewise never nil —
returns an error without writing any history file, so the union is never
recorded. -/
theorem history_union_invariant_unreachable :
    exceptIsOk (buildArchiveReadHistory c4FS 0) = false ∧
    (historyAppend c4FS 0 (osFileCreatorErr none) ["sha256:ccc"]).written = none ∧
    (historyAppend c4FS 0 (osFileCreatorErr none) ["sha256:ccc"]).err.isSome = true := by
  refine ⟨rfl, rfl, rfl⟩

/-- C5: with a well-formed history file on disk, `history.Read` returns a
generic wrapped error and no digest set — never the file's contents —
because `getFileDate`/`getHistoryFile` return `fmt.Errorf("%w", nil)` on
their success paths; only the no-file half of the claim holds: an empty
directory yields the distinguishable empty-history error and the archive
builder continues with an empty blob-filter set. -/
theorem history_read_never_returns_digest_set :
    (historyRead c5FSone 0).1 = none ∧
    (historyRead c5FSone 0).2.isSome = true ∧
    errIsEmptyHistory (historyRead c5FSone 0).2 = false ∧
    historyRead c5FSempty 0 = (some [], some (.emptyHistory "no history metadata found")) ∧
    errIsEmptyHistory (historyRead c5FSempty 0).2 = true ∧
    buildArchiveReadHistory c5FSempty 0 = .ok [] := by
  refine ⟨rfl, rfl, rfl, rfl, rfl, rfl⟩

/-- C6: a catalog selector with `full=true` and an empty package list
bypasses filtering: the effective declarative config is the original
one, the rebuilt tag is left empty, and the stored `CatalogFilterResult`
has `ToRebuild=false` (and no filtered-config path). -/
theorem full_catalog_bypasses_filtering {DC : Type}
    (filterCatalog : DC → OperatorConfig → DC) (op : OperatorConfig)
    (filterDigest filteredCatalogsDir : String) (originalDC : DC)
    (hfull : op.full = true) (hpkgs : op.includeConfig.packages = []) :
    collectFilterPhase filterCatalog op filterDigest filteredCatalogsDir originalDC =
      (originalDC, "",
       { operatorFilter := op, filteredConfigPath := "", toRebuild := false }) := by
  have hfc : isFullCatalog op = true := by
    simp [isFullCatalog, hpkgs, hfull]
  simp [collectFilterPhase, hfc]

theorem full_catalog_bypasses_filtering_witness :
    c6Op.full = true ∧ c6Op.includeConfig.packages = [] ∧
    collectFilterPhase (fun (d : String) _ => d) c6Op "ab12cd34" "filtered-catalogs"
        "original-config" =
      ("original-config", "",
       { operatorFilter := c6Op, filteredConfigPath := "", toRebuild := false }) :=
  ⟨rfl, rfl,
   full_catalog_bypasses_filtering (fun (d : String) _ => d) c6Op "ab12cd34"
     "filtered-catalogs" "original-config" rfl rfl⟩

/-- C8: when both `--from` and `--workspace` are non-empty, none of the
three mode checkers fires, so `MirrorValidate.CheckArgs` accepts the
invocation without error and leaves the workflow mode empty — the
command is not rejected. -/
theorem both_from_and_workspace_accepted :
    mirrorCheckArgs c8Args c8Opts = .ok c8Result ∧ c8Result.mode = "" := by
  refine ⟨rfl, rfl⟩

/-- C9 counterexample: a tar entry whose name begins with
`docker/registry/v2/` but contains `working-dir` further down is
extracted under the working directory's parent, not into the cache
directory — the extractor tests substring containment, not the prefix
the claim states. -/
theorem unarchive_prefix_claim_counterexample :
    goStartsWith c9Hdr.hdrName "docker/registry/v2/" = true ∧
    classifyEntry "/home/user/ws/working-dir" "/cache" c9Hdr =
      .toWorkingDir "/home/user/ws/docker/registry/v2/repositories/working-dir/x/data"
        493 := by
  refine ⟨rfl, rfl⟩

/-- C9 amended: classification is by substring containment with
`working-dir` taking priority: a regular-file entry whose name contains
`working-dir` is extracted under the parent of the working directory, an
entry containing `docker/registry/v2` (and not `working-dir`) into the
cache directory, and every other entry is ignored; extracted files are
opened with the tar header's mode forced to at least user-writable and
user-executable (`mode ||| 0755`). -/
theorem unarchive_classification (wd cd : String) (h : TarHeader) :
    (h.typeflag = .reg → goContains h.hdrName "working-dir" = true →
       classifyEntry wd cd h =
         .toWorkingDir (filepathJoin (filepathDir wd) h.hdrName) (Nat.lor h.mode 0o755)) ∧
    (h.typeflag = .reg → goContains h.hdrName "working-dir" = false →
       goContains h.hdrName "docker/registry/v2" = true →
       classifyEntry wd cd h = .toCache (filepathJoin cd h.hdrName) (Nat.lor h.mode 0o755)) ∧
    (goContains h.hdrName "working-dir" = false →
       goContains h.hdrName "docker/registry/v2" = false →
       classifyEntry wd cd h = .ignored) ∧
    (h.typeflag ≠ .reg → classifyEntry wd cd h = .ignored) ∧
    Nat.land (Nat.lor h.mode 0o755) 0o300 = 0o300 := by
  refine ⟨?_, ?_, ?_, ?_, ?_⟩
  · intro hreg hwd
    simp [classifyEntry, hreg, hwd]
  · intro hreg hwd hcache
    simp [classifyEntry, hreg, hwd, hcache]
  · intro hwd hcache
    by_cases hreg : h.typeflag = .reg
    · simp [classifyEntry, hreg, hwd, hcache]
    · simp [classifyEntry, hreg]
  · intro hreg
    simp [classifyEntry, hreg]
  · exact lor_land_superset h.mode 0o755 0o300 (by decide)

theorem leBytes_length : ∀ (k n : Nat), (leBytes n k).length = k := by
  intro k
  induction k with
  | zero => intro n; rfl
  | succ k ih =>
    intro n
    simp [leBytes, ih]

theorem md5bytes_length (m : List Nat) : (md5bytes m).length = 16 := by
  unfold md5bytes
  rcases md5state m with ⟨a, b, c, d⟩
  simp [List.length_append, leBytes_length]

theorem flatten_byteHex_length : ∀ (l : List Nat),
    ((l.map byteHex).flatten).length = 2 * l.length := by
  intro l
  induction l with
  | nil => rfl
  | cons x t ih =>
    simp only [List.map_cons, List.flatten_cons, List.length_append, ih,
      List.length_cons]
    simp [byteHex]
    omega

theorem md5hex_goLen (m : List Nat) : goLen (md5hex m) = 32 := by
  show (((md5bytes m).map byteHex).flatten).length = 32
  rw [flatten_byteHex_length, md5bytes_length]

theorem hexChar_mem (n : Nat) : hexChar n ∈ hexDigits := by
  unfold hexChar
  have h : n % 16 < hexDigits.length := by
    have h16 : n % 16 < 16 := Nat.mod_lt _ (by omega)
    have hlen : hexDigits.length = 16 := rfl
    omega
  rw [List.getD_eq_getElem _ _ h]
  exact List.getElem_mem h

theorem md5hex_chars (m : List Nat) : ∀ ch ∈ (md5hex m).data, ch ∈ hexDigits := by
  intro ch hch
  have hch2 : ch ∈ ((md5bytes m).map byteHex).flatten := hch
  rw [List.mem_flatten] at hch2
  obtain ⟨l, hl, hchl⟩ := hch2
  rw [List.mem_map] at hl
  obtain ⟨b, _, hb⟩ := hl
  rw [← hb] at hchl
  rcases List.mem_cons.mp hchl with h1 | hrest
  · rw [h1]
    exact hexChar_mem _
  · rcases List.mem_cons.mp hrest with h2 | h3
    · rw [h2]
      exact hexChar_mem _
    · exact absurd h3 (List.not_mem_nil _)

theorem goLen_goSliceTo (s : String) (n : Nat) :
    goLen (goSliceTo s n) = min n (goLen s) :=
  List.length_take n s.data

theorem goSliceTo_chars (s : String) (n : Nat)
    (hall : ∀ ch ∈ s.data, ch ∈ hexDigits) :
    ∀ ch ∈ (goSliceTo s n).data, ch ∈ hexDigits :=
  fun ch hch => hall ch (List.mem_of_mem_take hch)

set_option maxRecDepth 1000000 in
/-- C2 counterexample: two operator selectors that differ only in the
order of their two packages (all scalar fields equal, package lists
reverses of each other) produce different filter fingerprints — Go's
`json.Marshal` preserves slice order, so the serialization is not
canonical under package reordering. -/
theorem filter_fingerprint_order_sensitive :
    c2OpBA.includeConfig.packages = c2OpAB.includeConfig.packages.reverse ∧
    c2OpBA.catalog = c2OpAB.catalog ∧ c2OpBA.targetCatalog = c2OpAB.targetCatalog ∧
    c2OpBA.targetTag = c2OpAB.targetTag ∧ c2OpBA.full = c2OpAB.full ∧
    digestOfFilter c2OpAB ≠ digestOfFilter c2OpBA := by
  refine ⟨rfl, rfl, rfl, rfl, rfl, by decide⟩

/-- C2 amended: the filter fingerprint is the fixed-width 32-hex-digit
(128-bit MD5) hash of the declaration-ordered JSON serialization of the
selector with the target-catalog, target-tag and
target-catalog-source-template fields blanked; it ignores those three
fields, but the serialization is not canonicalized, so it is sensitive
to package/channel order. -/
theorem filter_fingerprint_width_and_blanking :
    ∀ c : OperatorConfig,
      goLen (digestOfFilter c) = 32 ∧
      (∀ ch ∈ (digestOfFilter c).data, ch ∈ hexDigits) ∧
      digestOfFilter c =
        digestOfFilter
          { c with
            targetCatalog := ""
            targetTag := ""
            targetCatalogSourceTemplate := "" } := by
  intro c
  refine ⟨?_, ?_, rfl⟩
  · unfold digestOfFilter
    rw [goLen_goSliceTo, md5hex_goLen]
    rfl
  · unfold digestOfFilter
    exact goSliceTo_chars _ 32 (md5hex_chars _)

set_option maxRecDepth 1000000 in
theorem filter_fingerprint_width_and_blanking_witness :
    goLen (digestOfFilter c2OpAB) = 32 ∧ '6' ∈ hexDigits :=
  ⟨(filter_fingerprint_width_and_blanking c2OpAB).1,
   (filter_fingerprint_width_and_blanking c2OpAB).2.1 '6' (by decide)⟩

theorem opPrepareM2DStep_skip_bad (opts : MirrorOpts) (bad : RelatedImage)
    (seen : List String)
    (hbad : bad.image = "" ∨ ∃ e, parseRef bad.image = .error e) :
    opPrepareM2DStep opts bad seen = ([], seen) := by
  rcases hbad with hemp | ⟨e, he⟩
  · simp [opPrepareM2DStep, hemp]
  · cases hempb : bad.image == "" with
    | true => simp [opPrepareM2DStep, hempb]
    | false => simp [opPrepareM2DStep, hempb, he]

theorem opPrepare_removal (opts : MirrorOpts) (bad : RelatedImage)
    (hbad : bad.image = "" ∨ ∃ e, parseRef bad.image = .error e) :
    ∀ (l1 l2 : List RelatedImage) (seen : List String),
      opPrepareM2DCopyBatch opts (l1 ++ bad :: l2) seen =
        opPrepareM2DCopyBatch opts (l1 ++ l2) seen := by
  intro l1
  induction l1 with
  | nil =>
    intro l2 seen
    simp only [List.nil_append, opPrepareM2DCopyBatch,
      opPrepareM2DStep_skip_bad opts bad seen hbad, List.append_nil]
  | cons x l1 ih =>
    intro l2 seen
    simp only [List.cons_append, opPrepareM2DCopyBatch, List.append_eq]
    rw [ih]

theorem additionalPlanOne_error_skip (opts : MirrorOpts) (bad : String)
    (hbad : ∃ e, parseRef bad = .error e) :
    additionalPlanOne opts bad = none := by
  obtain ⟨e, he⟩ := hbad
  simp [additionalPlanOne, he]

theorem additional_removal (opts : MirrorOpts) (bad : String)
    (hbad : ∃ e, parseRef bad = .error e) :
    ∀ (l1 l2 : List String),
      additionalCollect opts (l1 ++ bad :: l2) = additionalCollect opts (l1 ++ l2) := by
  intro l1
  induction l1 with
  | nil =>
    intro l2
    simp only [List.nil_append, additionalCollect,
      additionalPlanOne_error_skip opts bad hbad]
  | cons x l1 ih =>
    intro l2
    simp only [List.cons_append, additionalCollect, List.append_eq]
    cases hp : additionalPlanOne opts x with
    | none => exact ih l2
    | some v =>
      cases v with
      | error e => rfl
      | ok c =>
        dsimp only
        rw [ih]

theorem opPrepareM2DStep_cases (opts : MirrorOpts) (img : RelatedImage)
    (seen : List String) :
    (opPrepareM2DStep opts img seen = ([], seen) ∧
      (img.image = "" ∨ ∃ e, parseRef img.image = .error e)) ∨
    (opPrepareM2DStep opts img seen = ([], seen) ∧ seen.contains img.image = true) ∨
    (∃ spec, parseRef img.image = .ok spec ∧
      (opPrepareM2DStep opts img seen).2 = img.image :: seen ∧
      ∃ c ∈ (opPrepareM2DStep opts img seen).1,
        c.origin = spec.referenceWithTransport) := by
  cases hemp : img.image == "" with
  | true =>
    exact Or.inl ⟨by simp [opPrepareM2DStep, hemp], Or.inl (eq_of_beq hemp)⟩
  | false =>
    cases hp : parseRef img.image with
    | error e =>
      exact Or.inl ⟨by simp [opPrepareM2DStep, hemp, hp], Or.inr ⟨e, rfl⟩⟩
    | ok spec =>
      cases hseen : seen.contains img.image with
      | true =>
        refine Or.inr (Or.inl ⟨?_, rfl⟩)
        simp only [opPrepareM2DStep, hemp, Bool.false_eq_true, if_false, hp, hseen,
          if_true]
      | false =>
        refine Or.inr (Or.inr ⟨spec, rfl, ?_, ?_⟩)
        · simp only [opPrepareM2DStep, hemp, Bool.false_eq_true, if_false, hp, hseen]
        · simp only [opPrepareM2DStep, hemp, Bool.false_eq_true, if_false, hp, hseen]
          split
          · exact ⟨_, List.mem_cons_self _ _, rfl⟩
          · exact ⟨_, List.mem_cons_self _ _, rfl⟩

theorem contains_cons_eq (a b : String) (l : List String) :
    (b :: l).contains a = (a == b || l.contains a) := rfl

theorem opPrepare_presence_aux (opts : MirrorOpts) :
    ∀ (images : List RelatedImage) (img : RelatedImage) (spec : ImageSpec)
      (seen : List String),
      img ∈ images → parseRef img.image = .ok spec →
      (∃ c ∈ opPrepareM2DCopyBatch opts images seen,
        c.origin = spec.referenceWithTransport) ∨
      seen.contains img.image = true := by
  intro images
  induction images with
  | nil =>
    intro img spec seen hmem _
    exact absurd hmem (List.not_mem_nil _)
  | cons x rest ih =>
    intro img spec seen hmem hparse
    have hbatch : opPrepareM2DCopyBatch opts (x :: rest) seen =
        (opPrepareM2DStep opts x seen).1 ++
          opPrepareM2DCopyBatch opts rest (opPrepareM2DStep opts x seen).2 := rfl
    rcases List.mem_cons.mp hmem with heq | hmemr
    · subst heq
      rcases opPrepareM2DStep_cases opts img seen with ⟨hstep, hbad⟩ | ⟨hstep, hseen⟩ |
        ⟨spec2, hp2, hsnd, c, hc, horig⟩
      · rcases hbad with hempty | ⟨e, he⟩
        · rw [hempty] at hparse
          simp [parseRef] at hparse
        · rw [he] at hparse
          simp at hparse
      · exact Or.inr hseen
      · have hspec : spec2 = spec := by
          rw [hp2] at hparse
          exact Except.ok.inj hparse
        subst hspec
        left
        rw [hbatch]
        exact ⟨c, List.mem_append_left _ hc, horig⟩
    · rcases ih img spec (opPrepareM2DStep opts x seen).2 hmemr hparse with
        ⟨c, hc, horig⟩ | hcont
      · left
        rw [hbatch]
        exact ⟨c, List.mem_append_right _ hc, horig⟩
      · rcases opPrepareM2DStep_cases opts x seen with ⟨hstep, _⟩ | ⟨hstep, _⟩ |
          ⟨specx, hpx, hsnd, cx, hcx, horigx⟩
        · rw [hstep] at hcont
          exact Or.inr hcont
        · rw [hstep] at hcont
          exact Or.inr hcont
        · rw [hsnd, contains_cons_eq] at hcont
          cases hxy : img.image == x.image with
          | false =>
            rw [hxy] at hcont
            rw [Bool.false_or] at hcont
            exact Or.inr hcont
          | true =>
            have hxeq : img.image = x.image := eq_of_beq hxy
            rw [← hxeq] at hpx
            have hspec : specx = spec := by
              rw [hpx] at hparse
              exact Except.ok.inj hparse
            left
            rw [hbatch]
            refine ⟨cx, List.mem_append_left _ hcx, ?_⟩
            rw [horigx, hspec]

theorem additionalFinish_ok_origin (name : String) (sd : String × String)
    (c : CopyImageSchema) (h : additionalFinish name sd = some (.ok c)) :
    c.origin = name := by
  unfold additionalFinish at h
  split at h
  · exact absurd h (by simp)
  · split at h
    · exact absurd h (by simp)
    · split at h
      · exact absurd h (by simp)
      · simp only [Option.some.injEq, Except.ok.injEq] at h
        rw [← h]

theorem additionalFinish_isSome (name : String) (sd : String × String) :
    ∃ v, additionalFinish name sd = some v := by
  unfold additionalFinish
  split
  · exact ⟨_, rfl⟩
  · split
    · exact ⟨_, rfl⟩
    · split
      · exact ⟨_, rfl⟩
      · exact ⟨_, rfl⟩

theorem additionalPlanOne_ok_origin (opts : MirrorOpts) (name : String)
    (c : CopyImageSchema) (h : additionalPlanOne opts name = some (.ok c)) :
    c.origin = name := by
  unfold additionalPlanOne at h
  cases hp : parseRef name with
  | error e =>
    rw [hp] at h
    exact absurd h (by simp)
  | ok spec =>
    rw [hp] at h
    exact additionalFinish_ok_origin name (additionalSrcDest opts spec) c h

theorem additionalPlanOne_isSome (opts : MirrorOpts) (name : String)
    (spec : ImageSpec) (hp : parseRef name = .ok spec) :
    ∃ v, additionalPlanOne opts name = some v := by
  unfold additionalPlanOne
  rw [hp]
  exact additionalFinish_isSome name (additionalSrcDest opts spec)

theorem additional_presence (opts : MirrorOpts) :
    ∀ (names : List String) (name : String) (spec : ImageSpec)
      (l : List CopyImageSchema),
      name ∈ names → parseRef name = .ok spec →
      additionalCollect opts names = .ok l →
      ∃ c ∈ l, c.origin = name := by
  intro names
  induction names with
  | nil =>
    intro name spec l hmem _ _
    exact absurd hmem (List.not_mem_nil _)
  | cons x rest ih =>
    intro name spec l hmem hparse hcol
    rcases List.mem_cons.mp hmem with heq | hmemr
    · subst heq
      obtain ⟨v, hv⟩ := additionalPlanOne_isSome opts name spec hparse
      cases v with
      | error e =>
        simp only [additionalCollect, hv] at hcol
        exact absurd hcol (by simp)
      | ok c =>
        simp only [additionalCollect, hv] at hcol
        cases hrest : additionalCollect opts rest with
        | error e =>
          rw [hrest] at hcol
          simp [Except.map] at hcol
        | ok lr =>
          rw [hrest] at hcol
          simp only [Except.map] at hcol
          have hl : c :: lr = l := Except.ok.inj hcol
          rw [← hl]
          exact ⟨c, List.mem_cons_self _ _, additionalPlanOne_ok_origin opts name c hv⟩
    · cases hp : additionalPlanOne opts x with
      | none =>
        simp only [additionalCollect, hp] at hcol
        exact ih name spec l hmemr hparse hcol
      | some v =>
        cases v with
        | error e =>
          simp only [additionalCollect, hp] at hcol
          exact absurd hcol (by simp)
        | ok c =>
          simp only [additionalCollect, hp] at hcol
          cases hrest : additionalCollect opts rest with
          | error e =>
            rw [hrest] at hcol
            simp [Except.map] at hcol
          | ok lr =>
            rw [hrest] at hcol
            simp only [Except.map] at hcol
            have hl : c :: lr = l := Except.ok.inj hcol
            obtain ⟨cr, hcr, horig⟩ := ih name spec lr hmemr hparse hrest
            rw [← hl]
            exact ⟨cr, List.mem_cons_of_mem _ hcr, horig⟩

/-- C7: bad related-image entries never abort planning: in the operator
planner, an entry with an empty image string or an unparsable reference
contributes nothing and its removal leaves the plan unchanged (so the
total function never fails because of it); likewise in the
additional-images collector, an unparsable configured name is skipped
with a warning and its removal leaves the result — including whether an
error occurs at all — unchanged; and every entry that does parse is
still planned: it contributes a CopyImage carrying its origin. -/
theorem bad_entries_skipped_never_abort :
    (∀ (opts : MirrorOpts) (bad : RelatedImage) (l1 l2 : List RelatedImage)
       (seen : List String),
       bad.image = "" ∨ (∃ e, parseRef bad.image = .error e) →
       opPrepareM2DCopyBatch opts (l1 ++ bad :: l2) seen =
         opPrepareM2DCopyBatch opts (l1 ++ l2) seen) ∧
    (∀ (opts : MirrorOpts) (bad : String) (l1 l2 : List String),
       (∃ e, parseRef bad = .error e) →
       additionalCollect opts (l1 ++ bad :: l2) = additionalCollect opts (l1 ++ l2)) ∧
    (∀ (opts : MirrorOpts) (images : List RelatedImage) (img : RelatedImage)
       (spec : ImageSpec),
       img ∈ images → parseRef img.image = .ok spec →
       ∃ c ∈ opPrepareM2DCopyBatch opts images [],
         c.origin = spec.referenceWithTransport) ∧
    (∀ (opts : MirrorOpts) (names : List String) (name : String) (spec : ImageSpec)
       (l : List CopyImageSchema),
       name ∈ names → parseRef name = .ok spec → additionalCollect opts names = .ok l →
       ∃ c ∈ l, c.origin = name) := by
  refine ⟨?_, ?_, ?_, ?_⟩
  · intro opts bad l1 l2 seen hbad
    exact opPrepare_removal opts bad hbad l1 l2 seen
  · intro opts bad l1 l2 hbad
    exact additional_removal opts bad hbad l1 l2
  · intro opts images img spec hmem hparse
    rcases opPrepare_presence_aux opts images img spec [] hmem hparse with h | hcont
    · exact h
    · exact Bool.noConfusion hcont
  · intro opts names name spec l hmem hparse hcol
    exact additional_presence opts names name spec l hmem hparse hcol

theorem bad_entries_skipped_never_abort_witness :
    (opPrepareM2DCopyBatch c7Opts ([c7Good] ++ c7Empty :: []) [] =
      opPrepareM2DCopyBatch c7Opts ([c7Good] ++ []) []) ∧
    (additionalCollect c7Opts ([c7Good.image] ++ c7BadRef :: []) =
      additionalCollect c7Opts ([c7Good.image] ++ [])) :=
  ⟨bad_entries_skipped_never_abort.1 c7Opts c7Empty [c7Good] [] [] (Or.inl rfl),
   bad_entries_skipped_never_abort.2.1 c7Opts c7BadRef [c7Good.image] []
     ⟨"invalid reference: malformed digest in " ++ c7BadRef, rfl⟩⟩

set_option maxRecDepth 400000 in
/-- C3 counterexample: a digest-only image whose
`<algorithm>-<hex-digest>` concatenation has 200 characters gets a
destination tag of 127 characters, not the 128 the claim states: the
source truncates with `tag[:127]` after testing `len(tag) > 128`. -/
theorem digest_tag_truncation_counterexample :
    c3Spec.isImageByDigestOnly = true ∧
    goLen (c3Spec.algorithm ++ "-" ++ c3Spec.digest) = 200 ∧
    goLen (prepareTag c3Spec .generic "" "") = 127 ∧
    goLen (prepareTag c3Spec .generic "" "") ≠ 128 := by
  refine ⟨rfl, by decide, by decide, by decide⟩

/-- C3 amended: for a digest-only image the planner derives the
synthetic tag `<algorithm>-<hex-digest>`, and whenever that concatenation
is longer than 128 characters the resulting tag is its 127-character
truncation — both in the release planner's `prepareTag` and in the helm
planner's mirror-to-disk batch. -/
theorem digest_tag_truncated_to_127 :
    (∀ (spec : ImageSpec) (t : ImageType) (r n : String),
       (t == ImageType.ocpRelease || t == ImageType.cincinnatiGraph) = false →
       (t == ImageType.ocpReleaseContent && n != "") = false →
       spec.isImageByDigestOnly = true →
       128 < goLen (spec.algorithm ++ "-" ++ spec.digest) →
       prepareTag spec t r n = goSliceTo (spec.algorithm ++ "-" ++ spec.digest) 127 ∧
       goLen (prepareTag spec t r n) = 127) ∧
    (∀ (opts : MirrorOpts) (img : RelatedImage) (spec : ImageSpec),
       parseRef img.image = .ok spec →
       spec.isImageByDigestOnly = true →
       128 < goLen (spec.algorithm ++ "-" ++ spec.digest) →
       helmPrepareM2DCopyBatch opts [img] = .ok
         [{ source := spec.referenceWithTransport,
            destination := dockerPref ++ goJoin [helmDestinationRegistry opts,
              spec.pathComponent ++ ":" ++
                goSliceTo (spec.algorithm ++ "-" ++ spec.digest) 127] "/",
            origin := img.image, type := img.type }]) := by
  constructor
  · intro spec t r n hrel hcontent hdig hlen
    have heq : prepareTag spec t r n =
        goSliceTo (spec.algorithm ++ "-" ++ spec.digest) 127 := by
      unfold prepareTag
      simp only [hrel, hcontent, hdig, Bool.false_eq_true, if_false, if_true]
      rw [if_pos hlen]
    refine ⟨heq, ?_⟩
    rw [heq]
    show (List.take 127 (spec.algorithm ++ "-" ++ spec.digest).data).length = 127
    rw [List.length_take]
    have : 128 < (spec.algorithm ++ "-" ++ spec.digest).data.length := hlen
    omega
  · intro opts img spec hparse hdig hlen
    unfold helmPrepareM2DCopyBatch
    rw [hparse]
    simp only [hdig, if_true]
    rw [if_pos hlen]
    rfl

set_option maxRecDepth 400000 in
theorem digest_tag_truncated_to_127_witness :
    prepareTag c3Spec .generic "" "" =
      goSliceTo (c3Spec.algorithm ++ "-" ++ c3Spec.digest) 127 ∧
    goLen (prepareTag c3Spec .generic "" "") = 127 :=
  digest_tag_truncated_to_127.1 c3Spec .generic "" "" rfl rfl rfl (by decide)

theorem unarchive_classification_witness :
    c9Hdr.typeflag = .reg ∧ goContains c9Hdr.hdrName "working-dir" = true ∧
    classifyEntry "/home/user/ws/working-dir" "/cache" c9Hdr =
      .toWorkingDir (filepathJoin (filepathDir "/home/user/ws/working-dir")
        c9Hdr.hdrName) (Nat.lor c9Hdr.mode 0o755) :=
  ⟨rfl, rfl,
   (unarchive_classification "/home/user/ws/working-dir" "/cache" c9Hdr).1 rfl rfl⟩

end OcMirror
